import Mathlib

/-!
Shallow embedding of `src/frontend/server/iam-role-proxy.ts`.

The file under verification manages a MinIO client whose credentials may
come either from static access keys (persistent client) or from the EC2
instance-metadata service (dynamic, expiring credentials).  JavaScript
promises are modelled explicitly: the manager's mutable fields
(`expiration`, `_client`, `iamRole`) become a state record, each promise
created by the code becomes an entry in a table with an explicit
settlement state, and the asynchronous completions of the two outbound
fetches become external events.  Since the JS host is single-threaded and
`createClient` contains no `await`, each `client()` call runs atomically;
a `.then` continuation registered on an already-settled promise runs on
the microtask queue before any I/O completion event can be observed, so
it is folded into the step that registers it.
-/

namespace IamRoleProxy

/-- Connection options for the minio `Client`, mirroring the `ClientOptions`
interface.  `init` destructures `accessKey` and `secretKey` with default
`""`, so they are modelled as optional. -/
structure ClientOptions where
  endPoint : String
  port : Option Nat := none
  useSSL : Option Bool := none
  region : Option String := none
  accessKey : Option String := none
  secretKey : Option String := none
  sessionToken : Option String := none
  deriving Repr, DecidableEq

/-- Literal translation of `isAmazonEndpoint`: exact match against the two
recognized endpoint hostnames. -/
def isAmazonEndpoint (endpoint : String) : Bool :=
  endpoint = "s3.amazonaws.com" || endpoint = "s3.cn-north-1.amazonaws.com.cn"

/-- ASCII lowercasing, modelling the JS `endPoint.toLowerCase()` call in
`init` (the endpoints of interest are ASCII hostnames). -/
def lowerAscii (s : String) : String :=
  String.mk (s.data.map Char.toLower)

/-- A constructed minio `Client` value (`new Client(...)`).  `instanceId`
distinguishes distinct `new Client` invocations, so two handles are the
same instance exactly when their `ClientVal`s are equal. -/
structure ClientVal where
  instanceId : Nat
  endPoint : String
  accessKey : String
  secretKey : String
  sessionToken : Option String := none
  deriving Repr, DecidableEq

/-- The client built by `new Client(this.options)` in `init`. -/
def clientOfOptions (id : Nat) (o : ClientOptions) : ClientVal :=
  { instanceId := id
    endPoint := o.endPoint
    accessKey := o.accessKey.getD ""
    secretKey := o.secretKey.getD ""
    sessionToken := o.sessionToken }

/-- Settlement of the role-listing fetch
`fetch(metadataUrl/iam/security-credentials/, timeout 500).then(resp => resp.ok && resp.text())`:
either the promise resolves with `false` (non-2xx response), resolves with
the body text, or rejects (e.g. the 500 ms timeout fired), carrying the
rejection cause. -/
inductive RoleRes where
  | notOk
  | text (s : String)
  | rejected (e : String)
  deriving Repr, DecidableEq

/-- Truthiness test performed by the continuation
`iamRole => iamRole && this.getClientFromEc2MetaData(iamRole)`: `false` and
the empty string are falsy; a non-empty role string is truthy. -/
def RoleRes.truthy : RoleRes → Option String
  | .text s => if s = "" then none else some s
  | _ => none

/-- Partial JSON body of the per-role credentials response (`MetaDataResult`
in the source).  `Expiration` holds the value of
`new Date(Expiration).getTime()`, i.e. the parsed epoch-ms timestamp of the
ISO-8601 string. -/
structure MetaDataResult where
  AccessKeyId : String
  SecretAccessKey : String
  Expiration : Int
  Token : String
  deriving Repr, DecidableEq

/-- Settlement of one per-role credentials fetch (`fetch` + `resp.json()`):
parsed body, or rejection (network failure or malformed JSON). -/
inductive CredsRes where
  | ok (md : MetaDataResult)
  | rejected (e : String)
  deriving Repr, DecidableEq

/-- Settlement state of one client promise (a value ever held by
`this._client`, and returned to one `client()` caller). -/
inductive CPState where
  | waitRole
  | waitCreds (fetchId : Nat)
  | resolvedClient (c : ClientVal)
  | resolvedFalsy
  | rejected (e : String)
  deriving Repr, DecidableEq

/-- State of the `this.iamRole` field: never assigned, holding a pending
fetch promise, or holding a settled promise. -/
inductive RoleCell where
  | unset
  | pending
  | settled (r : RoleRes)
  deriving Repr, DecidableEq

/-- The manager's observable state: the mutable fields of
`MinioClientManager` plus instrumentation (request counters, the table of
client promises, and the promise returned to each `client()` caller). -/
structure MgrState where
  expiration : Int
  cps : List CPState
  clientIdx : Option Nat
  role : RoleCell
  roleRequests : Nat
  credsRequests : Nat
  nextInstance : Nat
  calls : List (Option Nat)
  deriving Repr, DecidableEq

/-- State after `init` takes the early `return` (dynamic mode): `expiration`
keeps its initial value `0`, `_client` and `iamRole` stay unassigned. -/
def dynamicInitState : MgrState :=
  { expiration := 0
    cps := []
    clientIdx := none
    role := .unset
    roleRequests := 0
    credsRequests := 0
    nextInstance := 0
    calls := [] }

/-- State after `init` builds a persistent client: `expiration := -1` and
`_client := Promise.resolve(new Client(this.options))`. -/
def persistentInitState (o : ClientOptions) : MgrState :=
  { expiration := -1
    cps := [.resolvedClient (clientOfOptions 0 o)]
    clientIdx := some 0
    role := .unset
    roleRequests := 0
    credsRequests := 0
    nextInstance := 1
    calls := [] }

/-- Literal translation of `init` (run once by the constructor): lowercase
the endpoint, test it against the allow-list, and fall back to IAM-role
credentials only when a key is missing. -/
def initState (o : ClientOptions) : MgrState :=
  let accessKey := o.accessKey.getD ""
  let secretKey := o.secretKey.getD ""
  if isAmazonEndpoint (lowerAscii o.endPoint) then
    if accessKey.length = 0 || secretKey.length = 0 then dynamicInitState
    else persistentInitState o
  else persistentInitState o

/-- Client-promise settlement produced when the role promise settled
without a truthy value: a rejection propagates through `.then`, while a
falsy resolution makes `iamRole && ...` resolve with that falsy value. -/
def roleFailCp : RoleRes → CPState
  | .rejected e => .rejected e
  | _ => .resolvedFalsy

/-- One `client()` call at time `now`.  `client()` runs
`this._client = this.createClient()` and hands the resulting promise to the
caller (recorded in `calls`).  `createClient` returns the cached promise
when `expiration < 0` or when a client promise exists and the credentials
are unexpired; otherwise it memoizes `this.iamRole` (issuing the
role-listing fetch only if the field was never set) and chains a fresh
client promise `this.iamRole.then(r => r && this.getClientFromEc2MetaData(r))`.
If `iamRole` is already settled truthy, the continuation fires at once and
issues a credentials fetch (id = current value of the counter). -/
def acquire (s : MgrState) (now : Int) : MgrState :=
  if s.expiration < 0 then
    { s with calls := s.calls ++ [s.clientIdx] }
  else if s.clientIdx.isSome ∧ now < s.expiration then
    { s with calls := s.calls ++ [s.clientIdx] }
  else
    let idx := s.cps.length
    match s.role with
    | .unset =>
        { s with role := .pending
                 roleRequests := s.roleRequests + 1
                 cps := s.cps ++ [.waitRole]
                 clientIdx := some idx
                 calls := s.calls ++ [some idx] }
    | .pending =>
        { s with cps := s.cps ++ [.waitRole]
                 clientIdx := some idx
                 calls := s.calls ++ [some idx] }
    | .settled r =>
        match r.truthy with
        | some _ =>
            { s with cps := s.cps ++ [.waitCreds s.credsRequests]
                     credsRequests := s.credsRequests + 1
                     clientIdx := some idx
                     calls := s.calls ++ [some idx] }
        | none =>
            { s with cps := s.cps ++ [roleFailCp r]
                     clientIdx := some idx
                     calls := s.calls ++ [some idx] }

/-- Fire the continuations of the client promises waiting on the role
promise, in registration order.  Each waiting continuation receives the
truthy role and calls `getClientFromEc2MetaData`, issuing its own
credentials fetch with the next fetch id.  Returns the updated promise
table and the new credentials-request counter. -/
def fireRoleWaiters (fid : Nat) : List CPState → List CPState × Nat
  | [] => ([], fid)
  | cp :: rest =>
      if cp = .waitRole then
        let fired := fireRoleWaiters (fid + 1) rest
        (CPState.waitCreds fid :: fired.1, fired.2)
      else
        let fired := fireRoleWaiters fid rest
        (cp :: fired.1, fired.2)

/-- The role-listing fetch settles with result `r` (a promise settles at
most once, hence the `.pending` guard).  A truthy role text fires every
waiting continuation, each issuing a credentials fetch; otherwise every
waiting client promise settles via `roleFailCp`. -/
def settleRole (s : MgrState) (r : RoleRes) : MgrState :=
  if s.role = .pending then
    match r.truthy with
    | some _ =>
        let fired := fireRoleWaiters s.credsRequests s.cps
        { s with role := .settled r, cps := fired.1, credsRequests := fired.2 }
    | none =>
        { s with role := .settled r
                 cps := s.cps.map fun cp => if cp = .waitRole then roleFailCp r else cp }
  else s

/-- The credentials fetch `fid` settles.  On success the `toClient`
callback inside `getClientFromEc2MetaData` runs: it overwrites
`this.expiration` with the parsed `Expiration` and builds a client bound
to the canonical endpoint with the returned keys and session token.  On
rejection the client promise waiting on this fetch rejects and
`expiration` is untouched.  The guard reflects that the fetch only exists
if some continuation issued it. -/
def settleCreds (s : MgrState) (fid : Nat) (res : CredsRes) : MgrState :=
  if CPState.waitCreds fid ∈ s.cps then
    match res with
    | .rejected e =>
        { s with cps := s.cps.map fun cp =>
            if cp = .waitCreds fid then .rejected e else cp }
    | .ok md =>
        let c : ClientVal :=
          { instanceId := s.nextInstance
            endPoint := "s3.amazonaws.com"
            accessKey := md.AccessKeyId
            secretKey := md.SecretAccessKey
            sessionToken := some md.Token }
        { s with expiration := md.Expiration
                 nextInstance := s.nextInstance + 1
                 cps := s.cps.map fun cp =>
                   if cp = .waitCreds fid then .resolvedClient c else cp }
  else s

/-- External events driving the manager: a `client()` call at a given
time, the role-listing fetch settling, or a credentials fetch settling. -/
inductive Event where
  | acquire (now : Int)
  | roleSettles (r : RoleRes)
  | credsSettle (fid : Nat) (res : CredsRes)
  deriving Repr, DecidableEq

/-- Single event step. -/
def step (s : MgrState) : Event → MgrState
  | .acquire now => acquire s now
  | .roleSettles r => settleRole s r
  | .credsSettle fid res => settleCreds s fid res

/-- Run a sequence of events. -/
def run (s : MgrState) (evs : List Event) : MgrState :=
  evs.foldl step s

/-- Outcome of an `acquireClient()` promise once it has settled: rejected
with a cause, resolved with a falsy non-client value, or resolved with a
client handle. -/
inductive AcqResult where
  | rejected (e : String)
  | falsy
  | client (c : ClientVal)
  deriving Repr, DecidableEq

/-- Settled outcome of a client promise (`none` while still pending). -/
def CPState.result : CPState → Option AcqResult
  | .resolvedClient c => some (.client c)
  | .resolvedFalsy => some .falsy
  | .rejected e => some (.rejected e)
  | _ => none

/-- Result of a method-shaped operation on the `Proxy` returned by
`getMinioClientProxy`, which runs
`manager.client().then(client => client[sKey].apply(client, args))`. -/
inductive FwdRes where
  | rejected (e : String)
  | typeErr
  | invoked (c : ClientVal)
  deriving Repr, DecidableEq

/-- What the forwarded method call does once `manager.client()` settles:
a rejection propagates unchanged through `.then`; a falsy resolution makes
`client[sKey]` throw, rejecting the operation with a TypeError; a client
resolution invokes the method on that client. -/
def forwardMethod : AcqResult → FwdRes
  | .rejected e => .rejected e
  | .falsy => .typeErr
  | .client c => .invoked c

/-- Forwarded method call as a function of the client-promise state: the
operation produces a result only after the resolution settles. -/
def forwardMethodOf (cp : CPState) : Option FwdRes :=
  (CPState.result cp).map forwardMethod

/-- Result of `MinioClientManager.getObject`, which runs
`this.client().then(client => client && client.getObject(bucket, key, cb))`. -/
inductive GetObjectRes where
  | rejected (e : String)
  | skipped
  | invoked (c : ClientVal)
  deriving Repr, DecidableEq

/-- What `getObject` does once `client()` settles: a rejection propagates;
a falsy client short-circuits `client && client.getObject(...)`, resolving
with the falsy value without calling the underlying method; a client
resolution invokes `getObject` on it. -/
def getObjectFwd : AcqResult → GetObjectRes
  | .rejected e => .rejected e
  | .falsy => .skipped
  | .client c => .invoked c

/-- Whether a `getObject` outcome is a failure (rejected promise). -/
def GetObjectRes.isFailure : GetObjectRes → Bool
  | .rejected _ => true
  | _ => false

/-- Sample options selecting dynamic mode: recognized endpoint, empty
access key. -/
def dynOpts : ClientOptions :=
  { endPoint := "s3.amazonaws.com", accessKey := some "", secretKey := some "sk" }

/-- Sample options selecting persistent mode: unrecognized endpoint. -/
def persOpts : ClientOptions :=
  { endPoint := "minio-service.kubeflow", accessKey := some "minio", secretKey := some "minio123" }

/-- Sample dynamically produced client handle. -/
def sampleClient : ClientVal :=
  { instanceId := 0
    endPoint := "s3.amazonaws.com"
    accessKey := "AK1"
    secretKey := "SK1"
    sessionToken := some "TK1" }

/-- Sample manager state after one successful dynamic refresh: a cached
handle expiring at time 100, role resolved. -/
def sampleCachedState : MgrState :=
  { expiration := 100
    cps := [.resolvedClient sampleClient]
    clientIdx := some 0
    role := .settled (.text "worker-role")
    roleRequests := 1
    credsRequests := 1
    nextInstance := 1
    calls := [some 0] }

/-- Helper: a `client()` call that sees a cached client promise with
unexpired credentials returns that promise unchanged and performs no
state change besides recording the call. -/
theorem acquire_cached (s : MgrState) (i : Nat) (now : Int)
    (h1 : s.clientIdx = some i) (h2 : now < s.expiration) :
    acquire s now = { s with calls := s.calls ++ [some i] } := by
  unfold acquire
  split
  · rw [h1]
  · rw [if_pos ⟨by simp [h1], h2⟩, h1]

/-- Helper: a `client()` call that must refresh while the role promise is
settled with a truthy role text issues exactly one credentials fetch and
no role-listing fetch. -/
theorem acquire_refresh_role_text (s : MgrState) (now : Int) (rn : String)
    (hrole : s.role = RoleCell.settled (RoleRes.text rn)) (hrn : rn ≠ "")
    (h0 : 0 ≤ s.expiration) (hexp : s.expiration ≤ now) :
    acquire s now =
      { s with cps := s.cps ++ [CPState.waitCreds s.credsRequests]
               credsRequests := s.credsRequests + 1
               clientIdx := some s.cps.length
               calls := s.calls ++ [some s.cps.length] } := by
  unfold acquire
  rw [if_neg (by omega), if_neg (by rintro ⟨-, h⟩; omega), hrole]
  simp [RoleRes.truthy, hrn]

/-- Helper: one event step never changes a settled role cell and never
issues a role-listing request once the role cell is settled. -/
theorem step_preserves_settled_role (s : MgrState) (r : RoleRes) (e : Event)
    (h : s.role = RoleCell.settled r) :
    (step s e).role = s.role ∧ (step s e).roleRequests = s.roleRequests := by
  cases e with
  | acquire now =>
      show (acquire s now).role = _ ∧ (acquire s now).roleRequests = _
      unfold acquire
      split
      · exact ⟨rfl, rfl⟩
      · split
        · exact ⟨rfl, rfl⟩
        · rw [h]
          rcases hr : r.truthy with - | v <;> simp [hr]
  | roleSettles r2 =>
      show (settleRole s r2).role = _ ∧ (settleRole s r2).roleRequests = _
      unfold settleRole
      rw [if_neg (by rw [h]; intro hc; cases hc)]
      exact ⟨rfl, rfl⟩
  | credsSettle fid res =>
      show (settleCreds s fid res).role = _ ∧ (settleCreds s fid res).roleRequests = _
      unfold settleCreds
      split
      · cases res <;> simp
      · exact ⟨rfl, rfl⟩

/-- Helper: over any event sequence, a settled role cell stays settled
with the same resolution and the role-listing request count is frozen. -/
theorem run_preserves_settled_role (s : MgrState) (r : RoleRes) (evs : List Event)
    (h : s.role = RoleCell.settled r) :
    (run s evs).role = RoleCell.settled r ∧ (run s evs).roleRequests = s.roleRequests := by
  induction evs generalizing s with
  | nil => exact ⟨h, rfl⟩
  | cons e rest ih =>
      have hstep := step_preserves_settled_role s r e h
      have hrest := ih (step s e) (hstep.1.trans h)
      exact ⟨hrest.1, by rw [show run s (e :: rest) = run (step s e) rest from rfl,
        hrest.2, hstep.2]⟩

/-- Helper: `initState` yields the persistent-mode state whenever the
endpoint is unrecognized or both keys are non-empty. -/
theorem initState_persistent (o : ClientOptions)
    (h : ¬ (isAmazonEndpoint (lowerAscii o.endPoint) = true ∧
      ((o.accessKey.getD "").length = 0 ∨ (o.secretKey.getD "").length = 0))) :
    initState o = persistentInitState o := by
  unfold initState
  split
  · next ha =>
      rw [if_neg]
      simp only [decide_eq_true_eq, Bool.or_eq_true] at *
      exact fun hk => h ⟨ha, hk⟩
  · rfl

/-- Helper: `initState` yields the dynamic-mode state whenever the
endpoint is recognized and a key is missing. -/
theorem initState_dynamic (o : ClientOptions)
    (ha : isAmazonEndpoint (lowerAscii o.endPoint) = true)
    (hk : (o.accessKey.getD "").length = 0 ∨ (o.secretKey.getD "").length = 0) :
    initState o = dynamicInitState := by
  unfold initState
  rw [if_pos ha, if_pos (by simpa using hk)]

/-- Helper: while `expiration < 0` (persistent client), every `client()`
call only appends the cached promise to the call log. -/
theorem run_acquires_persistent (ts : List Int) (s : MgrState) (h : s.expiration < 0) :
    run s (ts.map Event.acquire) =
      { s with calls := s.calls ++ ts.map fun _ => s.clientIdx } := by
  induction ts generalizing s with
  | nil => simp [run]
  | cons t rest ih =>
      have hstep : step s (Event.acquire t) = { s with calls := s.calls ++ [s.clientIdx] } := by
        show acquire s t = _
        unfold acquire
        rw [if_pos h]
      rw [show run s ((t :: rest).map Event.acquire) =
            run (step s (Event.acquire t)) (rest.map Event.acquire) from rfl, hstep,
          ih { s with calls := s.calls ++ [s.clientIdx] } h]
      simp

/-- Helper: running an event sequence extended by one event steps the
final state once more. -/
theorem run_concat (s : MgrState) (evs : List Event) (e : Event) :
    run s (evs ++ [e]) = step (run s evs) e := by
  simp [run, List.foldl_append]

/-- Helper: firing the continuations of `n` queued waiters issues `n`
credential fetches with consecutive fresh ids. -/
theorem fireRoleWaiters_replicate (n fid : Nat) :
    fireRoleWaiters fid (List.replicate n CPState.waitRole) =
      ((List.range n).map fun k => CPState.waitCreds (fid + k), fid + n) := by
  induction n generalizing fid with
  | zero => simp [fireRoleWaiters]
  | succ n ih =>
      rw [List.replicate_succ]
      have hstep : fireRoleWaiters fid (CPState.waitRole :: List.replicate n CPState.waitRole) =
          (CPState.waitCreds fid :: (fireRoleWaiters (fid + 1) (List.replicate n CPState.waitRole)).1,
           (fireRoleWaiters (fid + 1) (List.replicate n CPState.waitRole)).2) := rfl
      rw [hstep, ih (fid + 1), List.range_succ_eq_map]
      refine Prod.ext ?_ (by omega)
      simp only [List.map_cons, List.map_map, Nat.add_zero]
      congr 1
      apply List.map_congr_left
      intro k hk
      simp only [Function.comp_apply]
      congr 1
      omega

/-- Helper: `n + 1` client() calls at time 0 on a freshly dynamic manager:
the first issues the single role-listing fetch, every further call joins
the pending role promise, each with its own chained client promise. -/
theorem run_acquires_dynamic (n : Nat) :
    run dynamicInitState (List.replicate (n + 1) (Event.acquire 0)) =
      { expiration := 0
        cps := List.replicate (n + 1) CPState.waitRole
        clientIdx := some n
        role := .pending
        roleRequests := 1
        credsRequests := 0
        nextInstance := 0
        calls := (List.range (n + 1)).map some } := by
  induction n with
  | zero => rfl
  | succ n ih =>
      rw [List.replicate_succ' (n + 1), run_concat, ih]
      show acquire _ 0 = _
      unfold acquire
      rw [if_neg (by show ¬(0:Int) < 0; decide),
          if_neg (by rintro ⟨-, h⟩; exact absurd (h : (0:Int) < 0) (show ¬(0:Int) < 0 by decide))]
      simp [List.replicate_succ' (n + 1), List.range_succ, List.length_replicate]

/-- Helper: the dynamic-mode sample options indeed initialize into the
dynamic state. -/
theorem initState_dynOpts : initState dynOpts = dynamicInitState := by decide

/-- Helper: the first client() call on the fresh dynamic manager issues
the role-listing fetch and hands back a promise chained on it. -/
theorem acquire0_dyn :
    acquire dynamicInitState 0 =
      { expiration := 0
        cps := [CPState.waitRole]
        clientIdx := some 0
        role := .pending
        roleRequests := 1
        credsRequests := 0
        nextInstance := 0
        calls := [some 0] } := rfl

/-- Helper: reduction of `settleRole` when the role promise is pending and
settles truthy. -/
theorem settleRole_pending_truthy (s : MgrState) (r : RoleRes) (v : String)
    (hp : s.role = RoleCell.pending) (ht : r.truthy = some v) :
    settleRole s r =
      { s with role := .settled r
               cps := (fireRoleWaiters s.credsRequests s.cps).1
               credsRequests := (fireRoleWaiters s.credsRequests s.cps).2 } := by
  unfold settleRole
  rw [if_pos hp, ht]

/-- Helper: reduction of `settleRole` when the role promise is pending and
settles falsy or rejected. -/
theorem settleRole_pending_falsy (s : MgrState) (r : RoleRes)
    (hp : s.role = RoleCell.pending) (ht : r.truthy = none) :
    settleRole s r =
      { s with role := .settled r
               cps := s.cps.map fun cp =>
                 if cp = CPState.waitRole then roleFailCp r else cp } := by
  unfold settleRole
  rw [if_pos hp, ht]

/-- Helper: a client() refresh finding the role promise settled without a
truthy role chains a promise that immediately adopts the failed outcome,
with no network request of either kind. -/
theorem acquire_refresh_role_failed (s : MgrState) (now : Int) (r : RoleRes)
    (hrole : s.role = RoleCell.settled r) (ht : r.truthy = none)
    (h0 : 0 ≤ s.expiration) (hexp : s.expiration ≤ now) :
    acquire s now =
      { s with cps := s.cps ++ [roleFailCp r]
               clientIdx := some s.cps.length
               calls := s.calls ++ [some s.cps.length] } := by
  unfold acquire
  rw [if_neg (by omega), if_neg (by rintro ⟨-, h⟩; omega), hrole]
  cases r with
  | notOk => rfl
  | text v =>
      have hv : v = "" := by
        by_contra hv
        simp [RoleRes.truthy, hv] at ht
      subst hv; rfl
  | rejected e => rfl

/-- Helper: reduction of `settleCreds` on success when the fetch has a
waiting client promise. -/
theorem settleCreds_ok_mem (s : MgrState) (fid : Nat) (md : MetaDataResult)
    (hmem : CPState.waitCreds fid ∈ s.cps) :
    settleCreds s fid (CredsRes.ok md) =
      { s with expiration := md.Expiration
               nextInstance := s.nextInstance + 1
               cps := s.cps.map fun cp =>
                 if cp = CPState.waitCreds fid
                 then CPState.resolvedClient
                   { instanceId := s.nextInstance
                     endPoint := "s3.amazonaws.com"
                     accessKey := md.AccessKeyId
                     secretKey := md.SecretAccessKey
                     sessionToken := some md.Token }
                 else cp } := by
  unfold settleCreds
  rw [if_pos hmem]

/-- C4: initialization selects Dynamic mode (expiration left at 0, no
cached handle) exactly when the lowercased endpoint is a recognized cloud
endpoint AND the access key or secret key is empty; in every other case —
including a recognized endpoint with both keys non-empty — it selects
Persistent mode, sets expiration to -1 (never expire) and eagerly
constructs the client handle from the given options, with zero network
requests. -/
theorem c4_init_mode_selection (o : ClientOptions) :
    ((initState o).clientIdx = none ∧ (initState o).expiration = 0 ↔
      isAmazonEndpoint (lowerAscii o.endPoint) = true ∧
        ((o.accessKey.getD "").length = 0 ∨ (o.secretKey.getD "").length = 0)) ∧
    (¬ (isAmazonEndpoint (lowerAscii o.endPoint) = true ∧
        ((o.accessKey.getD "").length = 0 ∨ (o.secretKey.getD "").length = 0)) →
      (initState o).expiration = -1 ∧
      (initState o).cps = [CPState.resolvedClient (clientOfOptions 0 o)] ∧
      (initState o).clientIdx = some 0 ∧
      (initState o).roleRequests = 0 ∧ (initState o).credsRequests = 0) := by
  by_cases h : isAmazonEndpoint (lowerAscii o.endPoint) = true ∧
      ((o.accessKey.getD "").length = 0 ∨ (o.secretKey.getD "").length = 0)
  · rw [initState_dynamic o h.1 h.2]
    simp [dynamicInitState, h]
  · rw [initState_persistent o h]
    simp [persistentInitState, h]

/-- C4 witness: the default-style options target an unrecognized endpoint
and initialize a persistent client eagerly. -/
theorem c4_init_mode_selection_witness :
    (initState persOpts).expiration = -1 ∧
    (initState persOpts).cps = [CPState.resolvedClient (clientOfOptions 0 persOpts)] ∧
    (initState persOpts).clientIdx = some 0 ∧
    (initState persOpts).roleRequests = 0 ∧ (initState persOpts).credsRequests = 0 :=
  (c4_init_mode_selection persOpts).2 (by decide)

/-- C5: in Persistent mode every client() call returns the same resolved
handle (promise index 0 holding the eagerly constructed client instance),
never fails, and performs no network I/O: after any sequence of calls the
state still holds the single resolved client, both request counters are
zero, and every recorded call received promise 0. -/
theorem c5_persistent_stable (o : ClientOptions) (ts : List Int)
    (h : ¬ (isAmazonEndpoint (lowerAscii o.endPoint) = true ∧
        ((o.accessKey.getD "").length = 0 ∨ (o.secretKey.getD "").length = 0))) :
    run (initState o) (ts.map Event.acquire) =
      { expiration := -1
        cps := [CPState.resolvedClient (clientOfOptions 0 o)]
        clientIdx := some 0
        role := .unset
        roleRequests := 0
        credsRequests := 0
        nextInstance := 1
        calls := ts.map fun _ => some 0 } := by
  rw [initState_persistent o h,
      run_acquires_persistent ts (persistentInitState o) (show (-1:Int) < 0 by decide)]
  simp [persistentInitState]

/-- C5 witness at concrete options and two call times. -/
theorem c5_persistent_stable_witness :
    run (initState persOpts) ([0, 5].map Event.acquire) =
      { expiration := -1
        cps := [CPState.resolvedClient (clientOfOptions 0 persOpts)]
        clientIdx := some 0
        role := .unset
        roleRequests := 0
        credsRequests := 0
        nextInstance := 1
        calls := [some 0, some 0] } :=
  c5_persistent_stable persOpts [0, 5] (by decide)

/-- C6: in Dynamic mode with a cached handle, a strictly-future expiration
makes client() return the cached promise with zero network requests and no
other state change; an expiration at or before now (with the role already
resolved, as holds after any successful refresh) makes client() trigger
exactly one new refresh cycle: one chained credentials fetch and no
role-listing fetch. -/
theorem c6_cache_expiration (s : MgrState) (i : Nat) (now : Int) (rn : String) :
    (s.clientIdx = some i → now < s.expiration →
      acquire s now = { s with calls := s.calls ++ [some i] }) ∧
    (s.clientIdx = some i → s.role = RoleCell.settled (RoleRes.text rn) → rn ≠ "" →
      0 ≤ s.expiration → s.expiration ≤ now →
      acquire s now =
        { s with cps := s.cps ++ [CPState.waitCreds s.credsRequests]
                 credsRequests := s.credsRequests + 1
                 clientIdx := some s.cps.length
                 calls := s.calls ++ [some s.cps.length] }) :=
  ⟨fun h1 h2 => acquire_cached s i now h1 h2,
   fun _ hrole hrn h0 hexp => acquire_refresh_role_text s now rn hrole hrn h0 hexp⟩

/-- C6 witness on the sample cached state, hit at time 50 and expired at
time 200. -/
theorem c6_cache_expiration_witness :
    acquire sampleCachedState 50 =
      { sampleCachedState with calls := sampleCachedState.calls ++ [some 0] } ∧
    acquire sampleCachedState 200 =
      { sampleCachedState with
        cps := sampleCachedState.cps ++ [CPState.waitCreds sampleCachedState.credsRequests]
        credsRequests := sampleCachedState.credsRequests + 1
        clientIdx := some sampleCachedState.cps.length
        calls := sampleCachedState.calls ++ [some sampleCachedState.cps.length] } :=
  ⟨(c6_cache_expiration sampleCachedState 0 50 "worker-role").1 rfl (by decide),
   (c6_cache_expiration sampleCachedState 0 200 "worker-role").2 rfl rfl (by decide)
     (by decide) (by decide)⟩

/-- C8: once the role promise is settled with a successfully resolved role
text, no later event sequence — including failed credentials fetches —
issues another role-listing request or changes the cached role; and any
later refresh reuses the cached role, issuing exactly one credentials
fetch. -/
theorem c8_role_never_refetched (s : MgrState) (rn : String) (evs : List Event) (now : Int)
    (hrole : s.role = RoleCell.settled (RoleRes.text rn)) (hrn : rn ≠ "") :
    (run s evs).role = RoleCell.settled (RoleRes.text rn) ∧
    (run s evs).roleRequests = s.roleRequests ∧
    (0 ≤ (run s evs).expiration → (run s evs).expiration ≤ now →
      acquire (run s evs) now =
        { run s evs with
          cps := (run s evs).cps ++ [CPState.waitCreds (run s evs).credsRequests]
          credsRequests := (run s evs).credsRequests + 1
          clientIdx := some (run s evs).cps.length
          calls := (run s evs).calls ++ [some (run s evs).cps.length] }) := by
  have hp := run_preserves_settled_role s (RoleRes.text rn) evs hrole
  exact ⟨hp.1, hp.2, fun h0 hexp => acquire_refresh_role_text _ now rn hp.1 hrn h0 hexp⟩

/-- C8 witness: from the sample cached state, an expired call followed by
a FAILED credentials fetch still leaves the role cached, with the single
original role request; the next refresh at time 300 chains one more
credentials fetch only. -/
theorem c8_role_never_refetched_witness :
    (run sampleCachedState
        [Event.acquire 200, Event.credsSettle 1 (CredsRes.rejected "boom")]).role =
      RoleCell.settled (RoleRes.text "worker-role") ∧
    (run sampleCachedState
        [Event.acquire 200, Event.credsSettle 1 (CredsRes.rejected "boom")]).roleRequests =
      sampleCachedState.roleRequests ∧
    acquire (run sampleCachedState
        [Event.acquire 200, Event.credsSettle 1 (CredsRes.rejected "boom")]) 300 =
      { run sampleCachedState
          [Event.acquire 200, Event.credsSettle 1 (CredsRes.rejected "boom")] with
        cps := (run sampleCachedState
            [Event.acquire 200, Event.credsSettle 1 (CredsRes.rejected "boom")]).cps ++
          [CPState.waitCreds (run sampleCachedState
            [Event.acquire 200, Event.credsSettle 1 (CredsRes.rejected "boom")]).credsRequests]
        credsRequests := (run sampleCachedState
            [Event.acquire 200, Event.credsSettle 1 (CredsRes.rejected "boom")]).credsRequests + 1
        clientIdx := some (run sampleCachedState
            [Event.acquire 200, Event.credsSettle 1 (CredsRes.rejected "boom")]).cps.length
        calls := (run sampleCachedState
            [Event.acquire 200, Event.credsSettle 1 (CredsRes.rejected "boom")]).calls ++
          [some (run sampleCachedState
            [Event.acquire 200, Event.credsSettle 1 (CredsRes.rejected "boom")]).cps.length] } :=
  have h := c8_role_never_refetched sampleCachedState "worker-role"
    [Event.acquire 200, Event.credsSettle 1 (CredsRes.rejected "boom")] 300 rfl (by decide)
  ⟨h.1, h.2.1, h.2.2 (by decide) (by decide)⟩

/-- C9: a forwarded method-shaped operation yields a result only once the
manager's client resolution settles; a rejected resolution makes the
operation fail with the same cause (the underlying method is never
invoked), and the underlying method is invoked exactly when resolution
produced a client handle. -/
theorem c9_forwarder_resolution_first (cp : CPState) (e : String) (c : ClientVal) :
    (cp = CPState.rejected e → forwardMethodOf cp = some (FwdRes.rejected e)) ∧
    (forwardMethodOf cp = some (FwdRes.invoked c) → cp = CPState.resolvedClient c) := by
  constructor
  · rintro rfl; rfl
  · cases cp <;> simp [forwardMethodOf, CPState.result, forwardMethod]

/-- C9 witness: a rejected resolution forwards the same cause; an invoked
method implies a resolved client. -/
theorem c9_forwarder_resolution_first_witness :
    forwardMethodOf (CPState.rejected "boom") = some (FwdRes.rejected "boom") ∧
    CPState.resolvedClient sampleClient = CPState.resolvedClient sampleClient :=
  ⟨(c9_forwarder_resolution_first (CPState.rejected "boom") "boom" sampleClient).1 rfl,
   (c9_forwarder_resolution_first (CPState.resolvedClient sampleClient) "boom" sampleClient).2 rfl⟩

/-- C10: endpoint recognition happens on the lowercased endpoint: any
spelling whose ASCII lowercasing equals one of the two recognized
hostnames is recognized (so a mixed-case spelling with a missing key
selects Dynamic mode), and recognition is exact match on the lowercased
string otherwise. -/
theorem c10_case_insensitive_recognition (s : String) :
    ((lowerAscii s = "s3.amazonaws.com" ∨ lowerAscii s = "s3.cn-north-1.amazonaws.com.cn") →
      isAmazonEndpoint (lowerAscii s) = true) ∧
    (isAmazonEndpoint (lowerAscii s) = true →
      lowerAscii s = "s3.amazonaws.com" ∨ lowerAscii s = "s3.cn-north-1.amazonaws.com.cn") ∧
    (lowerAscii s = "s3.amazonaws.com" →
      initState { endPoint := s, accessKey := some "", secretKey := some "sk" } =
        dynamicInitState) := by
  refine ⟨?_, ?_, ?_⟩
  · intro h
    simp only [isAmazonEndpoint, Bool.or_eq_true, decide_eq_true_eq]
    exact h
  · intro h
    simpa [isAmazonEndpoint] using h
  · intro h
    exact initState_dynamic _ (by simp [isAmazonEndpoint, h]) (Or.inl rfl)

/-- C10 witness at a mixed-case spelling of the global endpoint. -/
theorem c10_case_insensitive_recognition_witness :
    isAmazonEndpoint (lowerAscii "S3.AmazonAWS.Com") = true ∧
    initState { endPoint := "S3.AmazonAWS.Com", accessKey := some "", secretKey := some "sk" } =
      dynamicInitState :=
  ⟨(c10_case_insensitive_recognition "S3.AmazonAWS.Com").1 (Or.inl (by decide)),
   (c10_case_insensitive_recognition "S3.AmazonAWS.Com").2.2 (by decide)⟩

/-- C1 as stated is false on the code: two client() calls arriving before
the in-flight role fetch settles lead to TWO credentials requests (not
one), and the two calls resolve to two DISTINCT handle instances. -/
theorem c1_single_flight_counterexample :
    (run (initState dynOpts)
        [Event.acquire 0, Event.acquire 0,
         Event.roleSettles (RoleRes.text "worker-role")]).credsRequests = 2 ∧
    (run (initState dynOpts)
        [Event.acquire 0, Event.acquire 0,
         Event.roleSettles (RoleRes.text "worker-role"),
         Event.credsSettle 0 (CredsRes.ok ⟨"AK1", "SK1", 100, "TK1"⟩),
         Event.credsSettle 1 (CredsRes.ok ⟨"AK1", "SK1", 100, "TK1"⟩)]).cps =
      [CPState.resolvedClient ⟨0, "s3.amazonaws.com", "AK1", "SK1", some "TK1"⟩,
       CPState.resolvedClient ⟨1, "s3.amazonaws.com", "AK1", "SK1", some "TK1"⟩] := by
  decide

/-- C1 amended: with n + 1 client() calls arriving before the in-flight
role fetch settles, exactly one role-listing request is issued in total
(the role promise is memoized and all callers chain on it), but when the
role resolves each queued caller fires its own continuation: n + 1
credentials requests are issued, one per call, each call waiting on its
own distinct fetch. -/
theorem c1_one_role_request_per_call_creds (n : Nat) (rn : String) (hrn : rn ≠ "") :
    (run (initState dynOpts) (List.replicate (n + 1) (Event.acquire 0))).roleRequests = 1 ∧
    (run (initState dynOpts)
        (List.replicate (n + 1) (Event.acquire 0) ++
          [Event.roleSettles (RoleRes.text rn)])).roleRequests = 1 ∧
    (run (initState dynOpts)
        (List.replicate (n + 1) (Event.acquire 0) ++
          [Event.roleSettles (RoleRes.text rn)])).credsRequests = n + 1 ∧
    (run (initState dynOpts)
        (List.replicate (n + 1) (Event.acquire 0) ++
          [Event.roleSettles (RoleRes.text rn)])).cps =
      (List.range (n + 1)).map CPState.waitCreds := by
  rw [initState_dynOpts]
  have hfull : run dynamicInitState
      (List.replicate (n + 1) (Event.acquire 0) ++ [Event.roleSettles (RoleRes.text rn)]) =
      { expiration := 0
        cps := (List.range (n + 1)).map CPState.waitCreds
        clientIdx := some n
        role := .settled (.text rn)
        roleRequests := 1
        credsRequests := n + 1
        nextInstance := 0
        calls := (List.range (n + 1)).map some } := by
    rw [run_concat, run_acquires_dynamic n]
    show settleRole _ _ = _
    rw [settleRole_pending_truthy _ _ rn rfl (by simp [RoleRes.truthy, hrn])]
    simp [fireRoleWaiters_replicate]
  refine ⟨?_, ?_, ?_, ?_⟩
  · rw [run_acquires_dynamic n]
  · rw [hfull]
  · rw [hfull]
  · rw [hfull]

/-- C1 amended witness at two concurrent calls and role text
worker-role. -/
theorem c1_one_role_request_per_call_creds_witness :
    (run (initState dynOpts) (List.replicate 2 (Event.acquire 0))).roleRequests = 1 ∧
    (run (initState dynOpts)
        (List.replicate 2 (Event.acquire 0) ++
          [Event.roleSettles (RoleRes.text "worker-role")])).roleRequests = 1 ∧
    (run (initState dynOpts)
        (List.replicate 2 (Event.acquire 0) ++
          [Event.roleSettles (RoleRes.text "worker-role")])).credsRequests = 2 ∧
    (run (initState dynOpts)
        (List.replicate 2 (Event.acquire 0) ++
          [Event.roleSettles (RoleRes.text "worker-role")])).cps =
      (List.range 2).map CPState.waitCreds :=
  c1_one_role_request_per_call_creds 1 "worker-role" (by decide)

/-- C2 as stated is false on the code: after the role-listing fetch
rejects (timeout), the next client() call issues NO new role-listing
request — the settled promise object is truthy, so
`this.iamRole = this.iamRole || fetch(...)` keeps the failed promise, and
the next call fails from the memoized rejection. -/
theorem c2_role_retry_counterexample :
    (run (initState dynOpts)
        [Event.acquire 0, Event.roleSettles (RoleRes.rejected "timeout"),
         Event.acquire 1]).roleRequests = 1 ∧
    (run (initState dynOpts)
        [Event.acquire 0, Event.roleSettles (RoleRes.rejected "timeout"),
         Event.acquire 1]).cps =
      [CPState.rejected "timeout", CPState.rejected "timeout"] := by
  decide

/-- C2 amended: when the role-listing fetch rejects (timeout), the current
client() call fails with the fetch's rejection; when it returns
non-success, the call resolves with no client instead of failing. In both
cases the settled role promise stays memoized in the iamRole field, so the
next client() call issues no new role-listing request and observes the
same failed outcome. -/
theorem c2_role_failure_memoized (e : String) (t1 : Int) (h1 : 0 ≤ t1) :
    run (initState dynOpts)
        [Event.acquire 0, Event.roleSettles (RoleRes.rejected e), Event.acquire t1] =
      { expiration := 0
        cps := [CPState.rejected e, CPState.rejected e]
        clientIdx := some 1
        role := .settled (.rejected e)
        roleRequests := 1
        credsRequests := 0
        nextInstance := 0
        calls := [some 0, some 1] } ∧
    run (initState dynOpts)
        [Event.acquire 0, Event.roleSettles RoleRes.notOk, Event.acquire t1] =
      { expiration := 0
        cps := [CPState.resolvedFalsy, CPState.resolvedFalsy]
        clientIdx := some 1
        role := .settled RoleRes.notOk
        roleRequests := 1
        credsRequests := 0
        nextInstance := 0
        calls := [some 0, some 1] } := by
  rw [initState_dynOpts]
  constructor
  · simp only [run, List.foldl, step]
    rw [acquire0_dyn, settleRole_pending_falsy _ (RoleRes.rejected e) rfl rfl,
        acquire_refresh_role_failed _ t1 (RoleRes.rejected e) rfl rfl (le_refl 0) h1]
    simp [roleFailCp]
  · simp only [run, List.foldl, step]
    rw [acquire0_dyn, settleRole_pending_falsy _ RoleRes.notOk rfl rfl,
        acquire_refresh_role_failed _ t1 RoleRes.notOk rfl rfl (le_refl 0) h1]
    simp [roleFailCp]

/-- C2 amended witness at cause timeout and second call time 1. -/
theorem c2_role_failure_memoized_witness :
    run (initState dynOpts)
        [Event.acquire 0, Event.roleSettles (RoleRes.rejected "timeout"), Event.acquire 1] =
      { expiration := 0
        cps := [CPState.rejected "timeout", CPState.rejected "timeout"]
        clientIdx := some 1
        role := .settled (.rejected "timeout")
        roleRequests := 1
        credsRequests := 0
        nextInstance := 0
        calls := [some 0, some 1] } ∧
    run (initState dynOpts)
        [Event.acquire 0, Event.roleSettles RoleRes.notOk, Event.acquire 1] =
      { expiration := 0
        cps := [CPState.resolvedFalsy, CPState.resolvedFalsy]
        clientIdx := some 1
        role := .settled RoleRes.notOk
        roleRequests := 1
        credsRequests := 0
        nextInstance := 0
        calls := [some 0, some 1] } :=
  c2_role_failure_memoized "timeout" 1 (by decide)

/-- C3 as stated is false on the code: with the role listing returning
non-success, the waiter's promise RESOLVES with a falsy value — no failure
is signalled — and getObject resolves without invoking the underlying
method, silently producing an empty result instead of failing. -/
theorem c3_no_client_failure_counterexample :
    (run (initState dynOpts) [Event.acquire 0, Event.roleSettles RoleRes.notOk]).cps =
      [CPState.resolvedFalsy] ∧
    CPState.result CPState.resolvedFalsy = some AcqResult.falsy ∧
    getObjectFwd AcqResult.falsy = GetObjectRes.skipped ∧
    (getObjectFwd AcqResult.falsy).isFailure = false := by
  decide

/-- C3 amended: whenever the refresh finds the role absent (role promise
resolved falsy), every waiting client promise resolves with the falsy
value — no failure is signalled to the waiters — and a forwarded getObject
then resolves without invoking the underlying storage method, silently
returning an empty result; the underlying method is invoked only when a
real client was resolved. -/
theorem c3_role_absent_silent_empty (s : MgrState) (r : RoleRes) (c : ClientVal)
    (hp : s.role = RoleCell.pending)
    (hr : r = RoleRes.notOk ∨ r = RoleRes.text "") :
    settleRole s r =
      { s with role := .settled r
               cps := s.cps.map fun cp =>
                 if cp = CPState.waitRole then CPState.resolvedFalsy else cp } ∧
    CPState.result CPState.resolvedFalsy = some AcqResult.falsy ∧
    getObjectFwd AcqResult.falsy = GetObjectRes.skipped ∧
    (getObjectFwd AcqResult.falsy).isFailure = false ∧
    (getObjectFwd AcqResult.falsy = GetObjectRes.invoked c → False) := by
  have ht : r.truthy = none := by rcases hr with rfl | rfl <;> rfl
  have hf : roleFailCp r = CPState.resolvedFalsy := by rcases hr with rfl | rfl <;> rfl
  refine ⟨?_, rfl, rfl, rfl, fun h => GetObjectRes.noConfusion h⟩
  rw [settleRole_pending_falsy s r hp ht, hf]

/-- C3 amended witness: one waiter, role listing non-success. -/
theorem c3_role_absent_silent_empty_witness :
    settleRole
      { expiration := 0
        cps := [CPState.waitRole]
        clientIdx := some 0
        role := .pending
        roleRequests := 1
        credsRequests := 0
        nextInstance := 0
        calls := [some 0] } RoleRes.notOk =
      { expiration := 0
        cps := [CPState.resolvedFalsy]
        clientIdx := some 0
        role := .settled RoleRes.notOk
        roleRequests := 1
        credsRequests := 0
        nextInstance := 0
        calls := [some 0] } ∧
    CPState.result CPState.resolvedFalsy = some AcqResult.falsy ∧
    getObjectFwd AcqResult.falsy = GetObjectRes.skipped ∧
    (getObjectFwd AcqResult.falsy).isFailure = false ∧
    (getObjectFwd AcqResult.falsy = GetObjectRes.invoked sampleClient → False) :=
  c3_role_absent_silent_empty
    { expiration := 0
      cps := [CPState.waitRole]
      clientIdx := some 0
      role := .pending
      roleRequests := 1
      credsRequests := 0
      nextInstance := 0
      calls := [some 0] } RoleRes.notOk sampleClient rfl (Or.inl rfl)

/-- C7: when the role listing returns a role name and the credentials
endpoint returns the MetaDataResult fields, the produced handle is bound
to the canonical endpoint s3.amazonaws.com with the returned access key,
secret key and session token, and the manager's expiration is set to the
parsed Expiration timestamp; a later call before that timestamp returns
the same handle promise with no new requests. -/
theorem c7_refresh_binds_credentials (rn : String) (md : MetaDataResult) (now : Int)
    (hrn : rn ≠ "") (hnow : now < md.Expiration) :
    run (initState dynOpts)
        [Event.acquire 0, Event.roleSettles (RoleRes.text rn),
         Event.credsSettle 0 (CredsRes.ok md)] =
      { expiration := md.Expiration
        cps := [CPState.resolvedClient
          { instanceId := 0
            endPoint := "s3.amazonaws.com"
            accessKey := md.AccessKeyId
            secretKey := md.SecretAccessKey
            sessionToken := some md.Token }]
        clientIdx := some 0
        role := .settled (.text rn)
        roleRequests := 1
        credsRequests := 1
        nextInstance := 1
        calls := [some 0] } ∧
    acquire
      { expiration := md.Expiration
        cps := [CPState.resolvedClient
          { instanceId := 0
            endPoint := "s3.amazonaws.com"
            accessKey := md.AccessKeyId
            secretKey := md.SecretAccessKey
            sessionToken := some md.Token }]
        clientIdx := some 0
        role := .settled (.text rn)
        roleRequests := 1
        credsRequests := 1
        nextInstance := 1
        calls := [some 0] } now =
      { expiration := md.Expiration
        cps := [CPState.resolvedClient
          { instanceId := 0
            endPoint := "s3.amazonaws.com"
            accessKey := md.AccessKeyId
            secretKey := md.SecretAccessKey
            sessionToken := some md.Token }]
        clientIdx := some 0
        role := .settled (.text rn)
        roleRequests := 1
        credsRequests := 1
        nextInstance := 1
        calls := [some 0, some 0] } := by
  constructor
  · rw [initState_dynOpts]
    simp only [run, List.foldl, step]
    rw [acquire0_dyn, settleRole_pending_truthy _ _ rn rfl (by simp [RoleRes.truthy, hrn]),
        settleCreds_ok_mem _ 0 md (by simp [fireRoleWaiters])]
    simp [fireRoleWaiters]
  · rw [acquire_cached _ 0 now rfl hnow]
    simp

/-- C7 witness at role worker-role and the 2099 credentials. -/
theorem c7_refresh_binds_credentials_witness :
    run (initState dynOpts)
        [Event.acquire 0, Event.roleSettles (RoleRes.text "worker-role"),
         Event.credsSettle 0 (CredsRes.ok ⟨"AK1", "SK1", 4070908800000, "TK1"⟩)] =
      { expiration := 4070908800000
        cps := [CPState.resolvedClient
          { instanceId := 0
            endPoint := "s3.amazonaws.com"
            accessKey := "AK1"
            secretKey := "SK1"
            sessionToken := some "TK1" }]
        clientIdx := some 0
        role := .settled (.text "worker-role")
        roleRequests := 1
        credsRequests := 1
        nextInstance := 1
        calls := [some 0] } ∧
    acquire
      { expiration := 4070908800000
        cps := [CPState.resolvedClient
          { instanceId := 0
            endPoint := "s3.amazonaws.com"
            accessKey := "AK1"
            secretKey := "SK1"
            sessionToken := some "TK1" }]
        clientIdx := some 0
        role := .settled (.text "worker-role")
        roleRequests := 1
        credsRequests := 1
        nextInstance := 1
        calls := [some 0] } 0 =
      { expiration := 4070908800000
        cps := [CPState.resolvedClient
          { instanceId := 0
            endPoint := "s3.amazonaws.com"
            accessKey := "AK1"
            secretKey := "SK1"
            sessionToken := some "TK1" }]
        clientIdx := some 0
        role := .settled (.text "worker-role")
        roleRequests := 1
        credsRequests := 1
        nextInstance := 1
        calls := [some 0, some 0] } :=
  c7_refresh_binds_credentials "worker-role" ⟨"AK1", "SK1", 4070908800000, "TK1"⟩ 0
    (by decide) (by decide)

end IamRoleProxy
